import Mathlib

/-
Shallow embedding of the medical-claims pipeline:
  src/models/claims_schema.py    (pydantic v1 data model)
  src/producers/claims_producer.py (Kafka producer)

Modelling conventions:
  * Python `Decimal` monetary values are embedded as `Rat` (Decimal
    addition/subtraction/comparison on these values is exact, so the
    claims' tolerance arithmetic is preserved).  Float quality scores
    are likewise embedded as `Rat`.
  * `datetime` values are embedded as `Int` (epoch seconds); only
    ordering is ever used by the code.
  * `Dict[str, str]` / `Dict[str, Any]` fields are embedded as
    association lists; the code under verification never inspects them.
  * pydantic v1 construction runs the field validators in field
    declaration order and raises `ValidationError` if any check fails.
    We embed construction of a model `M` as `M.construct : M → Except
    String M`, returning the first violated check's message (pydantic
    accumulates all messages, but succeeds exactly when our embedding
    returns `.ok`).  None of the models enables `validate_assignment`
    or defines a `Config`, so plain attribute assignment stores the
    value without running any validator; we embed such an assignment
    as a bare record update.
-/

/-- Types of medical claims (claims_schema.py, ClaimType). -/
inductive ClaimType where
  | medical | dental | vision | prescription | laboratory
  | radiology | surgery | emergency | preventive
  deriving DecidableEq

/-- Status of medical claims (claims_schema.py, ClaimStatus). -/
inductive ClaimStatus where
  | submitted | under_review | approved | denied | paid | appealed | closed
  deriving DecidableEq

/-- Types of healthcare providers (claims_schema.py, ProviderType). -/
inductive ProviderType where
  | physician | hospital | clinic | laboratory | pharmacy
  | specialist | nurse_practitioner | physician_assistant
  deriving DecidableEq

/-- ICD-10 diagnosis code (claims_schema.py, DiagnosisCode). -/
structure DiagnosisCode where
  code : String
  description : String
  primary : Bool := false
  severity : Option String := none
  deriving DecidableEq

/-- CPT/HCPCS procedure code (claims_schema.py, ProcedureCode).
`units` carries `Field(default=1)` in the source; the source declares no
validator and no `ge` bound for it. -/
structure ProcedureCode where
  code : String
  description : String
  modifier : Option String := none
  units : Int := 1
  deriving DecidableEq

/-- Pydantic construction of a ProcedureCode.  The source class has no
field constraints beyond the types and no `@validator`, so construction
never fails. -/
def ProcedureCode.construct (p : ProcedureCode) : Except String ProcedureCode :=
  .ok p

/-- Individual line item in a medical claim (claims_schema.py, ClaimLine). -/
structure ClaimLine where
  line_id : String
  procedure_code : ProcedureCode
  diagnosis_codes : List DiagnosisCode
  service_date : Int
  billed_amount : Rat
  allowed_amount : Option Rat := none
  paid_amount : Option Rat := none
  place_of_service : String
  rendering_provider_id : String
  deriving DecidableEq

/-- ClaimLine.validate_amounts: an amount, when present, may not be negative
(`if v is not None and v < 0: raise`). -/
def validate_amounts (v : Option Rat) : Bool :=
  match v with
  | some x => decide (0 ≤ x)
  | none => true

/-- Pydantic construction of a ClaimLine: `validate_amounts` runs on
billed_amount (always present), allowed_amount and paid_amount. -/
def ClaimLine.construct (l : ClaimLine) : Except String ClaimLine :=
  if validate_amounts (some l.billed_amount) && validate_amounts l.allowed_amount
      && validate_amounts l.paid_amount then
    .ok l
  else
    .error "Amount cannot be negative"

/-- Healthcare provider information (claims_schema.py, Provider). -/
structure Provider where
  provider_id : String
  name : String
  type : ProviderType
  npi : String
  tax_id : Option String := none
  address : List (String × String)
  phone : Option String := none
  specialty : Option String := none
  deriving DecidableEq

/-- Patient.validate_gender: gender must be one of M/F/O/U. -/
def validate_gender (v : String) : Bool :=
  v == "M" || v == "F" || v == "O" || v == "U"

/-- Patient information (claims_schema.py, Patient). -/
structure Patient where
  patient_id : String
  member_id : String
  first_name : String
  last_name : String
  date_of_birth : Int
  gender : String
  address : List (String × String)
  phone : Option String := none
  deriving DecidableEq

/-- Pydantic construction of a Patient: the gender validator is the only check. -/
def Patient.construct (p : Patient) : Except String Patient :=
  if validate_gender p.gender then .ok p
  else .error "Gender must be one of: M, F, O, U"

/-- Insurance information (claims_schema.py, Insurance). -/
structure Insurance where
  insurance_id : String
  payer_name : String
  payer_id : String
  group_number : String
  subscriber_number : String
  plan_type : String
  coverage_start_date : Int
  coverage_end_date : Option Int := none
  deriving DecidableEq

/-- Complete medical claim record (claims_schema.py, MedicalClaim). -/
structure MedicalClaim where
  claim_id : String
  claim_number : String
  claim_type : ClaimType
  claim_status : ClaimStatus := ClaimStatus.submitted
  patient : Patient
  insurance : Insurance
  provider : Provider
  claim_lines : List ClaimLine
  total_billed_amount : Rat
  total_allowed_amount : Option Rat := none
  total_paid_amount : Option Rat := none
  patient_responsibility : Option Rat := none
  date_of_service : Int
  claim_received_date : Int
  claim_processed_date : Option Int := none
  notes : Option String := none
  attachments : List String := []
  metadata : List (String × String) := []
  deriving DecidableEq

/-- Sum of the claim lines' billed amounts
(`sum(line.billed_amount for line in claim_lines)`). -/
def sumBilled (lines : List ClaimLine) : Rat :=
  (lines.map (fun l => l.billed_amount)).sum

/-- Sum of line allowed amounts, a missing value contributing 0
(`sum(line.allowed_amount or Decimal(0) for line in claim_lines)`;
note `or Decimal(0)` also maps an explicit 0 to 0). -/
def sumAllowed (lines : List ClaimLine) : Rat :=
  (lines.map (fun l => (l.allowed_amount).getD 0)).sum

/-- Sum of line paid amounts, a missing value contributing 0. -/
def sumPaid (lines : List ClaimLine) : Rat :=
  (lines.map (fun l => (l.paid_amount).getD 0)).sum

/-- MedicalClaim.validate_total_amounts: a total, when present, may not be
negative (identical body to ClaimLine.validate_amounts). -/
def validate_total_amounts (v : Option Rat) : Bool :=
  match v with
  | some x => decide (0 ≤ x)
  | none => true

/-- MedicalClaim.validate_claim_lines: the claim must have at least one line. -/
def validate_claim_lines (v : List ClaimLine) : Bool :=
  !v.isEmpty

/-- MedicalClaim.validate_total_billed_matches_lines: when the claim_lines
field itself validated, `abs(v - calculated_total) <= Decimal(0.01)` must
hold. -/
def validate_total_billed_matches_lines (v : Rat) (lines : List ClaimLine) : Bool :=
  decide (|v - sumBilled lines| ≤ 1/100)

/-- Pydantic construction of a MedicalClaim.  Field validators run in field
declaration order: claim_lines first, then total_billed_amount (its
non-negativity check, then the line-sum match check, which the source guards
with `if claim_lines in values`, i.e. it runs only when claim_lines itself
validated — in this straight-line embedding that guard is already satisfied),
then the three optional totals. -/
def MedicalClaim.construct (c : MedicalClaim) : Except String MedicalClaim :=
  if !validate_claim_lines c.claim_lines then
    .error "Claim must have at least one line item"
  else if !validate_total_amounts (some c.total_billed_amount) then
    .error "Total amount cannot be negative"
  else if !validate_total_billed_matches_lines c.total_billed_amount c.claim_lines then
    .error "Total billed amount must match sum of line items"
  else if !validate_total_amounts c.total_allowed_amount then
    .error "Total amount cannot be negative"
  else if !validate_total_amounts c.total_paid_amount then
    .error "Total amount cannot be negative"
  else if !validate_total_amounts c.patient_responsibility then
    .error "Total amount cannot be negative"
  else
    .ok c

/-- Python truthiness of an `Optional[Decimal]`: `None` and `Decimal(0)` are
falsy, every non-zero value is truthy.  `calculate_totals` branches on this
truthiness (`any(line.allowed_amount ...)`, `if self.total_allowed_amount
and self.total_paid_amount`). -/
def optTruthy : Option Rat → Bool
  | some x => x != 0
  | none => false

/-- First statement of MedicalClaim.calculate_totals:
`self.total_billed_amount = sum(line.billed_amount for line in self.claim_lines)`. -/
def MedicalClaim.updateTotalBilled (c : MedicalClaim) : MedicalClaim :=
  { c with total_billed_amount := sumBilled c.claim_lines }

/-- Second statement: `if any(line.allowed_amount for line in self.claim_lines):
self.total_allowed_amount = sum(line.allowed_amount or Decimal(0) ...)`. -/
def MedicalClaim.updateTotalAllowed (c : MedicalClaim) : MedicalClaim :=
  if c.claim_lines.any (fun l => optTruthy l.allowed_amount) then
    { c with total_allowed_amount := some (sumAllowed c.claim_lines) }
  else c

/-- Third statement: the same recomputation for total_paid_amount. -/
def MedicalClaim.updateTotalPaid (c : MedicalClaim) : MedicalClaim :=
  if c.claim_lines.any (fun l => optTruthy l.paid_amount) then
    { c with total_paid_amount := some (sumPaid c.claim_lines) }
  else c

/-- Fourth statement: `if self.total_allowed_amount and self.total_paid_amount:
self.patient_responsibility = self.total_allowed_amount - self.total_paid_amount`. -/
def MedicalClaim.updatePatientResponsibility (c : MedicalClaim) : MedicalClaim :=
  if optTruthy c.total_allowed_amount && optTruthy c.total_paid_amount then
    { c with patient_responsibility := some ((c.total_allowed_amount).getD 0 - (c.total_paid_amount).getD 0) }
  else c

/-- MedicalClaim.calculate_totals: the four statements of the source method,
in order.  The Python method raises no exception on any input; accordingly
the embedding is a total function. -/
def MedicalClaim.calculate_totals (c : MedicalClaim) : MedicalClaim :=
  c.updateTotalBilled.updateTotalAllowed.updateTotalPaid.updatePatientResponsibility

/-- Plain attribute assignment of claim_lines.  No pydantic model in the
source sets `validate_assignment`, so assignment stores the value without
re-running any validator. -/
def MedicalClaim.setClaimLines (c : MedicalClaim) (v : List ClaimLine) : MedicalClaim :=
  { c with claim_lines := v }

/-- Plain attribute assignment of total_billed_amount (unvalidated, as above). -/
def MedicalClaim.setTotalBilled (c : MedicalClaim) (v : Rat) : MedicalClaim :=
  { c with total_billed_amount := v }

/-- Data quality metrics for claims (claims_schema.py, ClaimQualityMetrics). -/
structure ClaimQualityMetrics where
  claim_id : String
  completeness_score : Rat
  accuracy_score : Rat
  validity_score : Rat
  overall_score : Rat
  missing_fields : List String := []
  validation_errors : List String := []
  data_anomalies : List String := []
  created_at : Int := 0
  deriving DecidableEq

/-- Field constraint `ge=0, le=100` carried by each score field. -/
def scoreInRange (x : Rat) : Bool :=
  decide (0 ≤ x) && decide (x ≤ 100)

/-- ClaimQualityMetrics.calculate_overall_score: when the three component
scores validated, `abs(v - (completeness + accuracy + validity) / 3) <= 0.01`
must hold. -/
def calculate_overall_score (v comp acc vld : Rat) : Bool :=
  decide (|v - (comp + acc + vld) / 3| ≤ 1/100)

/-- Pydantic construction of ClaimQualityMetrics: the `ge`/`le` bounds of the
four score fields in declaration order, then the overall-score validator
(whose `if ... in values` guard is satisfied here since the three component
scores already validated in this straight-line embedding). -/
def ClaimQualityMetrics.construct (m : ClaimQualityMetrics) :
    Except String ClaimQualityMetrics :=
  if !scoreInRange m.completeness_score then
    .error "completeness_score must be in [0, 100]"
  else if !scoreInRange m.accuracy_score then
    .error "accuracy_score must be in [0, 100]"
  else if !scoreInRange m.validity_score then
    .error "validity_score must be in [0, 100]"
  else if !scoreInRange m.overall_score then
    .error "overall_score must be in [0, 100]"
  else if !calculate_overall_score m.overall_score m.completeness_score
      m.accuracy_score m.validity_score then
    .error "Overall score must be average of individual scores"
  else
    .ok m

/-
Producer side (claims_producer.py).  The Kafka client is an external
collaborator; per the registration in _initialize_producer (the
`_on_send_success` / `_on_send_error` callback handlers) its contract is
to invoke the matching registered callback exactly once when a submitted
send completes, after which `future.get` returns the record metadata or
raises.  A send attempt's completion is therefore a parameter of the
embedding (`SendOutcome`), and `send_claim` threads the statistics
dictionary and the list of messages actually submitted to the backend.
-/

/-- The `stats` dictionary of ClaimsProducer: messages_sent,
messages_failed, bytes_sent, last_send_time, errors. -/
structure ProducerStats where
  messages_sent : Nat
  messages_failed : Nat
  bytes_sent : Nat
  last_send_time : Option Int
  errors : List (Int × String)
  deriving DecidableEq

/-- The freshly initialized statistics dictionary (all counters 0). -/
def initStats : ProducerStats :=
  { messages_sent := 0, messages_failed := 0, bytes_sent := 0,
    last_send_time := none, errors := [] }

/-- ClaimsProducer._on_send_success: increments messages_sent, adds the
message size to bytes_sent and stores the send time. -/
def on_send_success (s : ProducerStats) (valueLen : Nat) (now : Int) : ProducerStats :=
  { s with messages_sent := s.messages_sent + 1,
           bytes_sent := s.bytes_sent + valueLen,
           last_send_time := some now }

/-- ClaimsProducer._on_send_error: increments messages_failed and appends a
timestamped error record. -/
def on_send_error (s : ProducerStats) (now : Int) (err : String) : ProducerStats :=
  { s with messages_failed := s.messages_failed + 1,
           errors := s.errors ++ [(now, err)] }

/-- ClaimsProducer._validate_claim: claim_id and claim_number non-empty
(Python string truthiness), claim_lines non-empty, total_billed_amount > 0,
date_of_service not after the current time.  The source also tests
`not claim.patient or not claim.provider or not claim.insurance`, but those
are required pydantic sub-models and a model instance is always truthy, so
that test never fails; in this embedding the three sub-records are required
structure fields and the test is omitted as unfalsifiable. -/
def validate_claim (c : MedicalClaim) (now : Int) : Bool :=
  if c.claim_id.isEmpty || c.claim_number.isEmpty then false
  else if c.claim_lines.isEmpty then false
  else if c.total_billed_amount ≤ 0 then false
  else if now < c.date_of_service then false
  else true

/-- Completion of a send attempt, as acknowledged by the stream backend:
delivered (with the serialized value's size), timed out, or failed with an
error description. -/
inductive SendOutcome where
  | delivered (valueLen : Nat)
  | timedOut
  | sendFailed (err : String)
  deriving DecidableEq

/-- Whether the backend acknowledged the send. -/
def SendOutcome.isDelivered : SendOutcome → Bool
  | .delivered _ => true
  | _ => false

/-- Observable result of one ClaimsProducer.send_claim call: the returned
bool, the statistics dictionary afterwards, and the accumulated list of
claim ids submitted to the backend. -/
structure SendResult where
  ok : Bool
  stats : ProducerStats
  submitted : List String
  deriving DecidableEq

/-- ClaimsProducer.send_claim.  If `_validate_claim` fails, the method logs
and returns False without touching the producer or the statistics.
Otherwise the message is submitted to the backend; on completion the
matching registered callback fires (`_on_send_success` / `_on_send_error`),
then `future.get(timeout=30)` returns or raises.  A KafkaTimeoutError and
any other exception are caught, increment `stats[messages_failed]` once
more, and make the method return False. -/
def send_claim (claim : MedicalClaim) (now : Int) (outcome : SendOutcome)
    (stats : ProducerStats) (submitted : List String) : SendResult :=
  if !validate_claim claim now then
    { ok := false, stats := stats, submitted := submitted }
  else
    match outcome with
    | .delivered len =>
        { ok := true, stats := on_send_success stats len now,
          submitted := submitted ++ [claim.claim_id] }
    | .timedOut =>
        let s1 := on_send_error stats now "KafkaTimeoutError"
        { ok := false,
          stats := { s1 with messages_failed := s1.messages_failed + 1 },
          submitted := submitted ++ [claim.claim_id] }
    | .sendFailed e =>
        let s1 := on_send_error stats now e
        { ok := false,
          stats := { s1 with messages_failed := s1.messages_failed + 1 },
          submitted := submitted ++ [claim.claim_id] }

/-- A sequence of publish attempts on one producer instance: each event is
the claim together with the backend completion of its send, and the
statistics dictionary is threaded through `send_claim`. -/
def runSends (events : List (MedicalClaim × SendOutcome)) (now : Int)
    (s : ProducerStats) : ProducerStats :=
  match events with
  | [] => s
  | (c, o) :: rest => runSends rest now (send_claim c now o s []).stats

/-- Number of events whose send the backend acknowledged. -/
def countDelivered (events : List (MedicalClaim × SendOutcome)) : Nat :=
  (events.filter (fun e => e.2.isDelivered)).length

/-- Number of events whose send timed out or failed. -/
def countFailedSends (events : List (MedicalClaim × SendOutcome)) : Nat :=
  (events.filter (fun e => !e.2.isDelivered)).length

/-- The results dictionary of ClaimsProducer.send_claim_batch. -/
structure BatchResults where
  total : Nat
  successful : Nat
  failed : Nat
  deriving DecidableEq

/-- What one iteration of the batch loop observes for a claim: `send_claim`
returned a bool, or the loop body raised and the `except` clause caught it. -/
inductive ClaimAttempt where
  | returns (ok : Bool)
  | raises (e : String)
  deriving DecidableEq

/-- One iteration of the send_claim_batch loop: a True return increments
successful, a False return increments failed, and a caught per-claim
exception also increments failed (it never aborts the loop). -/
def batchStep (r : BatchResults) (a : ClaimAttempt) : BatchResults :=
  match a with
  | .returns true => { r with successful := r.successful + 1 }
  | .returns false => { r with failed := r.failed + 1 }
  | .raises _ => { r with failed := r.failed + 1 }

/-- ClaimsProducer.send_claim_batch: results starts at
`{total: len(claims), successful: 0, failed: 0}`, the loop iterates the
claims in batch order, and `producer.flush()` afterwards does not change
the returned counts (the embedding is a total function, so the call — and
in particular its flush barrier — returns on every input). -/
def send_claim_batch (claims : List MedicalClaim)
    (attempt : MedicalClaim → ClaimAttempt) : BatchResults :=
  claims.foldl (fun r c => batchStep r (attempt c))
    { total := claims.length, successful := 0, failed := 0 }

/-
Concrete fixtures used by the counterexamples and witnesses.  They follow
the example claim constructed in claims_producer.py's `__main__` block.
-/

/-- Office-visit procedure code from the source's example usage. -/
def procedureCode0 : ProcedureCode :=
  { code := "99213", description := "Office visit, established patient" }

/-- General-examination diagnosis code from the source's example usage. -/
def diagnosisCode0 : DiagnosisCode :=
  { code := "Z00.00", description := "General adult medical examination", primary := true }

/-- Patient record from the source's example usage. -/
def patient0 : Patient :=
  { patient_id := "PAT001", member_id := "MEM001", first_name := "John",
    last_name := "Doe", date_of_birth := 315532800, gender := "M",
    address := [("street", "123 Main St")] }

/-- Provider record from the source's example usage. -/
def provider0 : Provider :=
  { provider_id := "PROV001", name := "Dr. Smith", type := ProviderType.physician,
    npi := "1234567890", address := [("street", "456 Medical Dr")] }

/-- Insurance record from the source's example usage. -/
def insurance0 : Insurance :=
  { insurance_id := "INS001", payer_name := "Health Insurance Co",
    payer_id := "PAYER001", group_number := "GRP001", subscriber_number := "SUB001",
    plan_type := "PPO", coverage_start_date := 1672531200 }

/-- A claim line billed at 150.00 with no allowed or paid amount. -/
def line150 : ClaimLine :=
  { line_id := "L1", procedure_code := procedureCode0,
    diagnosis_codes := [diagnosisCode0], service_date := 50,
    billed_amount := 150, place_of_service := "11",
    rendering_provider_id := "PROV001" }

/-- A well-formed claim: one line billed at 150.00 and a matching total,
service date 50 (in the past relative to the clock value 100 used below). -/
def claimGood : MedicalClaim :=
  { claim_id := "CLM-1", claim_number := "CLM001", claim_type := ClaimType.medical,
    patient := patient0, insurance := insurance0, provider := provider0,
    claim_lines := [line150], total_billed_amount := 150,
    date_of_service := 50, claim_received_date := 60 }

/-- The same claim with date_of_service one second after the clock value 100. -/
def futureClaim : MedicalClaim :=
  { claimGood with date_of_service := 101 }

/-- The same claim with total_billed_amount 250 against a line sum of 150. -/
def badClaim : MedicalClaim :=
  { claimGood with total_billed_amount := 250 }

/-- A claim line with an explicitly zero (non-null) allowed amount. -/
def lineZeroAllowed : ClaimLine :=
  { line150 with line_id := "L2", allowed_amount := some 0 }

/-- A claim whose single line carries a non-null allowed amount of 0 and
whose stored total_allowed_amount is a stale 7. -/
def claimZeroAllowed : MedicalClaim :=
  { claimGood with claim_lines := [lineZeroAllowed], total_allowed_amount := some 7 }

/-
Helper lemmas about calculate_totals, shared by several theorems below.
-/

/-- updateTotalAllowed is a single record update of total_allowed_amount. -/
theorem updateTotalAllowed_eq (c : MedicalClaim) :
    c.updateTotalAllowed = { c with total_allowed_amount := if c.claim_lines.any (fun l => optTruthy l.allowed_amount) then some (sumAllowed c.claim_lines) else c.total_allowed_amount } := by
  unfold MedicalClaim.updateTotalAllowed
  split <;> rename_i h <;> simp [h]

/-- updateTotalPaid is a single record update of total_paid_amount. -/
theorem updateTotalPaid_eq (c : MedicalClaim) :
    c.updateTotalPaid = { c with total_paid_amount := if c.claim_lines.any (fun l => optTruthy l.paid_amount) then some (sumPaid c.claim_lines) else c.total_paid_amount } := by
  unfold MedicalClaim.updateTotalPaid
  split <;> rename_i h <;> simp [h]

/-- updatePatientResponsibility is a single record update of
patient_responsibility. -/
theorem updatePatientResponsibility_eq (c : MedicalClaim) :
    c.updatePatientResponsibility = { c with patient_responsibility := if optTruthy c.total_allowed_amount && optTruthy c.total_paid_amount then some ((c.total_allowed_amount).getD 0 - (c.total_paid_amount).getD 0) else c.patient_responsibility } := by
  unfold MedicalClaim.updatePatientResponsibility
  split <;> rename_i h <;> simp [h]

/-- updateTotalAllowed leaves every other field unchanged. -/
theorem updateTotalAllowed_ex (c : MedicalClaim) :
    ∃ v, c.updateTotalAllowed = { c with total_allowed_amount := v } :=
  ⟨_, updateTotalAllowed_eq c⟩

/-- updateTotalPaid leaves every other field unchanged. -/
theorem updateTotalPaid_ex (c : MedicalClaim) :
    ∃ v, c.updateTotalPaid = { c with total_paid_amount := v } :=
  ⟨_, updateTotalPaid_eq c⟩

/-- updatePatientResponsibility leaves every other field unchanged. -/
theorem updatePatientResponsibility_ex (c : MedicalClaim) :
    ∃ v, c.updatePatientResponsibility = { c with patient_responsibility := v } :=
  ⟨_, updatePatientResponsibility_eq c⟩

/-- calculate_totals changes at most the four total fields: it equals a
single record update of those fields by some values. -/
theorem calcTotals_eq_update (c : MedicalClaim) :
    ∃ tb ta tp pr, c.calculate_totals = { c with total_billed_amount := tb, total_allowed_amount := ta, total_paid_amount := tp, patient_responsibility := pr } := by
  obtain ⟨ta, h2⟩ := updateTotalAllowed_ex c.updateTotalBilled
  obtain ⟨tp, h3⟩ := updateTotalPaid_ex c.updateTotalBilled.updateTotalAllowed
  obtain ⟨pr, h4⟩ :=
    updatePatientResponsibility_ex c.updateTotalBilled.updateTotalAllowed.updateTotalPaid
  refine ⟨sumBilled c.claim_lines, ta, tp, pr, ?_⟩
  unfold MedicalClaim.calculate_totals
  rw [h4, h3, h2]
  rfl

/-- calculate_totals leaves the claim lines unchanged. -/
theorem calcTotals_claim_lines (c : MedicalClaim) :
    c.calculate_totals.claim_lines = c.claim_lines := by
  obtain ⟨tb, ta, tp, pr, h⟩ := calcTotals_eq_update c
  rw [h]

/-- calculate_totals sets total_billed_amount to the exact sum of the line
billed amounts. -/
theorem calcTotals_billed (c : MedicalClaim) :
    c.calculate_totals.total_billed_amount = sumBilled c.claim_lines := by
  unfold MedicalClaim.calculate_totals
  rw [updatePatientResponsibility_eq, updateTotalPaid_eq, updateTotalAllowed_eq]
  rfl

/-- calculate_totals recomputes total_allowed_amount exactly when some line
has a truthy (non-null and non-zero) allowed amount, and leaves it unchanged
otherwise. -/
theorem calcTotals_allowed (c : MedicalClaim) :
    c.calculate_totals.total_allowed_amount = (if c.claim_lines.any (fun l => optTruthy l.allowed_amount) then some (sumAllowed c.claim_lines) else c.total_allowed_amount) := by
  unfold MedicalClaim.calculate_totals
  rw [updatePatientResponsibility_eq, updateTotalPaid_eq, updateTotalAllowed_eq]
  rfl

/-- calculate_totals recomputes total_paid_amount exactly when some line has
a truthy (non-null and non-zero) paid amount, and leaves it unchanged
otherwise. -/
theorem calcTotals_paid (c : MedicalClaim) :
    c.calculate_totals.total_paid_amount = (if c.claim_lines.any (fun l => optTruthy l.paid_amount) then some (sumPaid c.claim_lines) else c.total_paid_amount) := by
  unfold MedicalClaim.calculate_totals
  rw [updatePatientResponsibility_eq, updateTotalPaid_eq, updateTotalAllowed_eq]
  rfl

/-- calculate_totals sets patient_responsibility to allowed minus paid
exactly when the updated totals are both truthy (non-null and non-zero),
and leaves it unchanged otherwise. -/
theorem calcTotals_pr (c : MedicalClaim) :
    c.calculate_totals.patient_responsibility = (if optTruthy c.calculate_totals.total_allowed_amount && optTruthy c.calculate_totals.total_paid_amount then some ((c.calculate_totals.total_allowed_amount).getD 0 - (c.calculate_totals.total_paid_amount).getD 0) else c.patient_responsibility) := by
  conv_lhs => unfold MedicalClaim.calculate_totals
  rw [calcTotals_allowed, calcTotals_paid]
  rw [updatePatientResponsibility_eq, updateTotalPaid_eq, updateTotalAllowed_eq]
  rfl

/-
Shared helper lemmas.
-/

/-- If every per-line amount under `f` passed the line validator (is
non-negative when present) and none is positive, then no line's amount is
truthy, so the corresponding `any` test in calculate_totals is false. -/
theorem any_optTruthy_eq_false (lines : List ClaimLine) (f : ClaimLine → Option Rat)
    (h1 : ∀ l ∈ lines, validate_amounts (f l) = true)
    (h2 : ∀ l ∈ lines, ¬ 0 < ((f l).getD 0)) :
    lines.any (fun l => optTruthy (f l)) = false := by
  rw [← Bool.not_eq_true, List.any_eq_true]
  push_neg
  intro l hl
  have h1l := h1 l hl
  have h2l := h2 l hl
  cases hf : f l with
  | none => simp [optTruthy]
  | some x =>
    rw [hf] at h1l h2l
    simp [validate_amounts] at h1l
    simp at h2l
    have hx : x = 0 := le_antisymm h2l h1l
    simp [optTruthy, hx]

/-- The pre-publish gate passes exactly when claim_id and claim_number are
non-empty, claim_lines is non-empty, the billed total is positive and the
service date is not in the future. -/
theorem validate_claim_true_iff (c : MedicalClaim) (now : Int) :
    validate_claim c now = true ↔
      (¬ c.claim_id = "" ∧ ¬ c.claim_number = "" ∧ ¬ c.claim_lines = [] ∧ 0 < c.total_billed_amount ∧ c.date_of_service ≤ now) := by
  unfold validate_claim
  split_ifs with h1 h2 h3 h4 <;>
    simp_all [String.isEmpty_iff, List.isEmpty_iff, not_lt, not_le]
  tauto

/-- One batch-loop step never changes the stored total. -/
theorem batchStep_total (r : BatchResults) (a : ClaimAttempt) :
    (batchStep r a).total = r.total := by
  cases a with
  | returns ok => cases ok <;> rfl
  | raises e => rfl

/-- One batch-loop step increments successful + failed by exactly one,
whatever the claim's attempt produced. -/
theorem batchStep_sum (r : BatchResults) (a : ClaimAttempt) :
    (batchStep r a).successful + (batchStep r a).failed = r.successful + r.failed + 1 := by
  cases a with
  | returns ok => cases ok <;> simp [batchStep] <;> omega
  | raises e => simp [batchStep]; omega

/-- The batch loop never changes the stored total. -/
theorem batch_foldl_total (claims : List MedicalClaim) (attempt : MedicalClaim → ClaimAttempt) (r : BatchResults) :
    (claims.foldl (fun acc c => batchStep acc (attempt c)) r).total = r.total := by
  induction claims generalizing r with
  | nil => rfl
  | cons c rest ih => rw [List.foldl_cons, ih, batchStep_total]

/-- The batch loop adds exactly one count per claim. -/
theorem batch_foldl_sum (claims : List MedicalClaim) (attempt : MedicalClaim → ClaimAttempt) (r : BatchResults) :
    (claims.foldl (fun acc c => batchStep acc (attempt c)) r).successful
      + (claims.foldl (fun acc c => batchStep acc (attempt c)) r).failed
      = r.successful + r.failed + claims.length := by
  induction claims generalizing r with
  | nil => simp
  | cons c rest ih =>
    rw [List.foldl_cons, ih (batchStep r (attempt c))]
    have := batchStep_sum r (attempt c)
    simp [List.length_cons]
    omega

/-- When every claim's attempt returns the bool `p c`, the batch loop counts
exactly the claims satisfying `p` as successful and the rest as failed. -/
theorem batch_foldl_counts (claims : List MedicalClaim) (attempt : MedicalClaim → ClaimAttempt)
    (p : MedicalClaim → Bool) (r : BatchResults)
    (h : ∀ c ∈ claims, attempt c = ClaimAttempt.returns (p c)) :
    (claims.foldl (fun acc c => batchStep acc (attempt c)) r).successful = r.successful + (claims.filter p).length
  ∧ (claims.foldl (fun acc c => batchStep acc (attempt c)) r).failed = r.failed + (claims.filter (fun c => !p c)).length := by
  induction claims generalizing r with
  | nil => simp
  | cons c rest ih =>
    have hc := h c (List.mem_cons_self _ _)
    have hrest : ∀ x ∈ rest, attempt x = ClaimAttempt.returns (p x) :=
      fun x hx => h x (List.mem_cons_of_mem _ hx)
    obtain ⟨ihs, ihf⟩ := ih (batchStep r (attempt c)) hrest
    rw [List.foldl_cons]
    constructor
    · rw [ihs, hc]
      cases hp : p c <;> simp [batchStep, List.filter_cons, hp] <;> omega
    · rw [ihf, hc]
      cases hp : p c <;> simp [batchStep, List.filter_cons, hp] <;> omega

/-- A list splits into the claims satisfying a gate and those failing it. -/
theorem length_filter_split (claims : List MedicalClaim) (p : MedicalClaim → Bool) :
    (claims.filter p).length + (claims.filter (fun c => !p c)).length = claims.length := by
  induction claims with
  | nil => rfl
  | cons c rest ih => cases hp : p c <;> simp [List.filter_cons, hp] <;> omega

/-- When the backend acknowledges the send, send_claim returns True exactly
for claims passing the pre-publish gate. -/
theorem send_claim_ok_eq (c : MedicalClaim) (now : Int) (outcome : SendOutcome)
    (stats : ProducerStats) (sub : List String) (h : outcome.isDelivered = true) :
    (send_claim c now outcome stats sub).ok = validate_claim c now := by
  cases outcome with
  | delivered len => cases hv : validate_claim c now <;> simp [send_claim, hv]
  | timedOut => simp [SendOutcome.isDelivered] at h
  | sendFailed e => simp [SendOutcome.isDelivered] at h

/-- For a claim passing the gate, one send_claim call adds 1 to
messages_sent on delivery, and adds 2 to messages_failed on a timeout or
send error: one increment from the `_on_send_error` callback and one from
the method's own exception handler. -/
theorem send_claim_stats_step (c : MedicalClaim) (now : Int) (outcome : SendOutcome)
    (s : ProducerStats) (sub : List String) (h : validate_claim c now = true) :
    (send_claim c now outcome s sub).stats.messages_sent = s.messages_sent + (if outcome.isDelivered then 1 else 0)
  ∧ (send_claim c now outcome s sub).stats.messages_failed = s.messages_failed + (if outcome.isDelivered then 0 else 2) := by
  cases outcome <;>
    simp [send_claim, h, on_send_success, on_send_error, SendOutcome.isDelivered]

/-
Claim theorems.
-/

/-- C1: a MedicalClaim constructs successfully only if the absolute
difference between total_billed_amount and the sum of the lines' billed
amounts is at most 0.01, and whenever the difference exceeds 0.01 the
construction fails with a validation error. -/
theorem construct_total_billed_tolerance (c : MedicalClaim) :
    ((MedicalClaim.construct c).isOk = true → |c.total_billed_amount - sumBilled c.claim_lines| ≤ 1/100)
  ∧ ((1:Rat)/100 < |c.total_billed_amount - sumBilled c.claim_lines| → ∃ e, MedicalClaim.construct c = Except.error e) := by
  unfold MedicalClaim.construct
  constructor
  · intro h
    split_ifs at h with h1 h2 h3 h4 h5 h6
    all_goals first
      | (simp [Except.isOk, Except.toBool] at h; done)
      | (simp [validate_total_billed_matches_lines] at h3; linarith)
  · intro hgt
    split_ifs with h1 h2 h3 h4 h5 h6
    all_goals first
      | exact ⟨_, rfl⟩
      | (exfalso
         simp [validate_total_billed_matches_lines] at h3
         linarith)

/-- C1 witness: claimGood (one line at 150.00, total 150.00) is within
tolerance and constructs; badClaim (total 250.00 against a line sum of
150.00) is rejected. -/
theorem construct_total_billed_tolerance_witness :
    |claimGood.total_billed_amount - sumBilled claimGood.claim_lines| ≤ 1/100
  ∧ ∃ e, MedicalClaim.construct badClaim = Except.error e := by
  constructor
  · refine (construct_total_billed_tolerance claimGood).1 ?_
    have h : MedicalClaim.construct claimGood = Except.ok claimGood := by
      simp [MedicalClaim.construct, validate_claim_lines, validate_total_amounts,
            validate_total_billed_matches_lines, sumBilled, claimGood, line150]
    rw [h]
    rfl
  · refine (construct_total_billed_tolerance badClaim).2 ?_
    have h : badClaim.total_billed_amount - sumBilled badClaim.claim_lines = 100 := by
      simp [badClaim, claimGood, sumBilled, line150]
      norm_num
    rw [h, abs_of_nonneg (by norm_num)]
    norm_num

/-- C2 counterexample: claimZeroAllowed's single line has a non-null
allowed_amount (an explicit 0), yet calculate_totals does not recompute
total_allowed_amount to the line sum — the source tests Python truthiness,
which treats Decimal(0) like None, so the stale stored total (7) survives. -/
theorem calculate_totals_zero_allowed_counterexample :
    claimZeroAllowed.claim_lines.any (fun l => l.allowed_amount.isSome) = true
  ∧ claimZeroAllowed.calculate_totals.total_allowed_amount ≠ some (sumAllowed claimZeroAllowed.claim_lines) := by
  constructor
  · decide
  · have h : sumAllowed claimZeroAllowed.claim_lines = 0 := by
      simp [sumAllowed, claimZeroAllowed, lineZeroAllowed, line150]
    have h2 : claimZeroAllowed.calculate_totals.total_allowed_amount = some 7 := by decide
    rw [h, h2]
    norm_num

/-- C2 (amended): calculate_totals sets total_billed_amount to the exact
line sum; it recomputes total_allowed_amount (respectively
total_paid_amount) if and only if at least one line has a non-null AND
non-zero allowed (respectively paid) amount, leaving it unchanged
otherwise; and it sets patient_responsibility to allowed minus paid exactly
when both updated totals are non-null and non-zero, leaving it unchanged
otherwise. -/
theorem calculate_totals_characterization (c : MedicalClaim) :
    c.calculate_totals.total_billed_amount = sumBilled c.claim_lines
  ∧ c.calculate_totals.total_allowed_amount = (if c.claim_lines.any (fun l => optTruthy l.allowed_amount) then some (sumAllowed c.claim_lines) else c.total_allowed_amount)
  ∧ c.calculate_totals.total_paid_amount = (if c.claim_lines.any (fun l => optTruthy l.paid_amount) then some (sumPaid c.claim_lines) else c.total_paid_amount)
  ∧ c.calculate_totals.patient_responsibility = (if optTruthy c.calculate_totals.total_allowed_amount && optTruthy c.calculate_totals.total_paid_amount then some ((c.calculate_totals.total_allowed_amount).getD 0 - (c.calculate_totals.total_paid_amount).getD 0) else c.patient_responsibility) :=
  ⟨calcTotals_billed c, calcTotals_allowed c, calcTotals_paid c, calcTotals_pr c⟩

/-- C3 counterexample: a single failed send (J = 1, K = 0) through a fresh
producer leaves messages_failed = 2, not 1 — the failure is recorded once
by the `_on_send_error` callback and once more by send_claim's exception
handler — refuting that each failed outcome updates the statistics exactly
once. -/
theorem send_failure_double_count_counterexample :
    validate_claim claimGood 100 = true
  ∧ initStats.messages_failed = 0
  ∧ (send_claim claimGood 100 SendOutcome.timedOut initStats []).stats.messages_failed = 2 :=
  ⟨by decide, rfl, by decide⟩

/-- C3 (amended): after a sequence of publish attempts of gate-passing
claims in which K sends complete successfully and J sends fail, the
statistics report messages_sent = K and messages_failed = 2·J: every
delivered outcome updates the statistics exactly once, but every failed
outcome updates them twice. -/
theorem publisher_stats_counts (events : List (MedicalClaim × SendOutcome)) (now : Int) (s : ProducerStats)
    (h : ∀ e ∈ events, validate_claim e.1 now = true) :
    (runSends events now s).messages_sent = s.messages_sent + countDelivered events
  ∧ (runSends events now s).messages_failed = s.messages_failed + 2 * countFailedSends events := by
  induction events generalizing s with
  | nil => simp [runSends, countDelivered, countFailedSends]
  | cons e rest ih =>
    obtain ⟨c, o⟩ := e
    have he : validate_claim c now = true := h (c, o) (List.mem_cons_self _ _)
    have hrest : ∀ x ∈ rest, validate_claim x.1 now = true :=
      fun x hx => h x (List.mem_cons_of_mem _ hx)
    obtain ⟨ihs, ihf⟩ := ih (send_claim c now o s []).stats hrest
    obtain ⟨hs1, hf1⟩ := send_claim_stats_step c now o s [] he
    constructor
    · rw [show runSends ((c, o) :: rest) now s = runSends rest now (send_claim c now o s []).stats from rfl, ihs, hs1]
      cases hd : o.isDelivered <;> simp [countDelivered, List.filter_cons, hd] <;> omega
    · rw [show runSends ((c, o) :: rest) now s = runSends rest now (send_claim c now o s []).stats from rfl, ihf, hf1]
      cases hd : o.isDelivered <;> simp [countFailedSends, List.filter_cons, hd] <;> omega

/-- C3 witness: one delivered and one timed-out send of claimGood from a
fresh producer yield the counts predicted by the amended statement. -/
theorem publisher_stats_counts_witness :
    (runSends [(claimGood, SendOutcome.delivered 10), (claimGood, SendOutcome.timedOut)] 100 initStats).messages_sent = initStats.messages_sent + countDelivered [(claimGood, SendOutcome.delivered 10), (claimGood, SendOutcome.timedOut)]
  ∧ (runSends [(claimGood, SendOutcome.delivered 10), (claimGood, SendOutcome.timedOut)] 100 initStats).messages_failed = initStats.messages_failed + 2 * countFailedSends [(claimGood, SendOutcome.delivered 10), (claimGood, SendOutcome.timedOut)] :=
  publisher_stats_counts [(claimGood, SendOutcome.delivered 10), (claimGood, SendOutcome.timedOut)] 100 initStats (by decide)

/-- C4: send_claim_batch always returns total = N and successful + failed
= N for a batch of N claims, whatever per-claim attempts occur (including
caught per-claim exceptions, which count as failed and never abort the
loop); and when the backend acknowledges every submitted send, a batch
with M claims failing the publish-time gates returns
{total: N, successful: N - M, failed: M}.  The flush barrier afterwards
returns on every input (the embedding is a total function). -/
theorem send_claim_batch_counts (claims : List MedicalClaim) (now : Int)
    (backend : MedicalClaim → SendOutcome) (stats : ProducerStats)
    (attempt : MedicalClaim → ClaimAttempt)
    (hb : ∀ c ∈ claims, (backend c).isDelivered = true) :
    (send_claim_batch claims attempt).total = claims.length
  ∧ (send_claim_batch claims attempt).successful + (send_claim_batch claims attempt).failed = claims.length
  ∧ (send_claim_batch claims (fun c => ClaimAttempt.returns (send_claim c now (backend c) stats []).ok)).total = claims.length
  ∧ (send_claim_batch claims (fun c => ClaimAttempt.returns (send_claim c now (backend c) stats []).ok)).failed = (claims.filter (fun c => !validate_claim c now)).length
  ∧ (send_claim_batch claims (fun c => ClaimAttempt.returns (send_claim c now (backend c) stats []).ok)).successful = claims.length - (claims.filter (fun c => !validate_claim c now)).length := by
  have hpoint : ∀ c ∈ claims,
      (fun c => ClaimAttempt.returns (send_claim c now (backend c) stats []).ok) c
        = ClaimAttempt.returns ((fun c => validate_claim c now) c) := by
    intro c hc
    simp only []
    rw [send_claim_ok_eq c now (backend c) stats [] (hb c hc)]
  have h3 := batch_foldl_counts claims _ (fun c => validate_claim c now)
    { total := claims.length, successful := 0, failed := 0 } hpoint
  have h5 := length_filter_split claims (fun c => validate_claim c now)
  unfold send_claim_batch
  refine ⟨batch_foldl_total claims attempt _, ?_, batch_foldl_total claims _ _, ?_, ?_⟩
  · have hsum := batch_foldl_sum claims attempt { total := claims.length, successful := 0, failed := 0 }
    simp at hsum
    omega
  · rw [h3.2]
    simp
  · rw [h3.1]
    simp
    omega

/-- C4 witness: a two-claim batch (one valid, one future-dated) with an
always-delivering backend yields {total: 2, successful: 1, failed: 1}, and
the loop invariant also holds under an attempt that always raises. -/
theorem send_claim_batch_counts_witness :
    (send_claim_batch [claimGood, futureClaim] (fun _ => ClaimAttempt.raises "boom")).total = [claimGood, futureClaim].length
  ∧ (send_claim_batch [claimGood, futureClaim] (fun _ => ClaimAttempt.raises "boom")).successful + (send_claim_batch [claimGood, futureClaim] (fun _ => ClaimAttempt.raises "boom")).failed = [claimGood, futureClaim].length
  ∧ (send_claim_batch [claimGood, futureClaim] (fun c => ClaimAttempt.returns (send_claim c 100 ((fun _ => SendOutcome.delivered 10) c) initStats []).ok)).total = [claimGood, futureClaim].length
  ∧ (send_claim_batch [claimGood, futureClaim] (fun c => ClaimAttempt.returns (send_claim c 100 ((fun _ => SendOutcome.delivered 10) c) initStats []).ok)).failed = ([claimGood, futureClaim].filter (fun c => !validate_claim c 100)).length
  ∧ (send_claim_batch [claimGood, futureClaim] (fun c => ClaimAttempt.returns (send_claim c 100 ((fun _ => SendOutcome.delivered 10) c) initStats []).ok)).successful = [claimGood, futureClaim].length - ([claimGood, futureClaim].filter (fun c => !validate_claim c 100)).length :=
  send_claim_batch_counts [claimGood, futureClaim] 100 (fun _ => SendOutcome.delivered 10) initStats (fun _ => ClaimAttempt.raises "boom") (by decide)

/-- C5: a claim failing any pre-publish gate — a future date_of_service
(even by one second), an empty claim_id or claim_number, empty claim_lines,
or a non-positive billed total — is rejected by send_claim: the method
returns False, the claim is never submitted to the backend, and no
statistics counter changes (the embedding is a total function, so no
exception reaches the caller). -/
theorem send_claim_rejects_invalid (claim : MedicalClaim) (now : Int) (outcome : SendOutcome)
    (stats : ProducerStats) (submitted : List String)
    (h : now < claim.date_of_service ∨ claim.claim_id = "" ∨ claim.claim_number = "" ∨ claim.claim_lines = [] ∨ claim.total_billed_amount ≤ 0) :
    validate_claim claim now = false
  ∧ send_claim claim now outcome stats submitted = { ok := false, stats := stats, submitted := submitted } := by
  have hv : validate_claim claim now = false := by
    cases hvt : validate_claim claim now with
    | false => rfl
    | true =>
      exfalso
      rw [validate_claim_true_iff] at hvt
      obtain ⟨hid, hnum, hlines, hpos, hdate⟩ := hvt
      rcases h with h|h|h|h|h
      · omega
      · exact hid h
      · exact hnum h
      · exact hlines h
      · exact absurd hpos (not_lt.mpr h)
  refine ⟨hv, ?_⟩
  simp [send_claim, hv]

/-- C5 witness: futureClaim (date_of_service one second after the clock) is
rejected with untouched statistics and no submission, even though the
backend would have delivered. -/
theorem send_claim_rejects_invalid_witness :
    validate_claim futureClaim 100 = false
  ∧ send_claim futureClaim 100 (SendOutcome.delivered 10) initStats [] = { ok := false, stats := initStats, submitted := [] } :=
  send_claim_rejects_invalid futureClaim 100 (SendOutcome.delivered 10) initStats [] (Or.inl (by decide))

/-- C6: calculate_totals never fails (it is a total function of the claim)
and is idempotent: a second invocation leaves all four totals exactly as
the first invocation did. -/
theorem calculate_totals_idempotent (c : MedicalClaim) :
    c.calculate_totals.calculate_totals.total_billed_amount = c.calculate_totals.total_billed_amount
  ∧ c.calculate_totals.calculate_totals.total_allowed_amount = c.calculate_totals.total_allowed_amount
  ∧ c.calculate_totals.calculate_totals.total_paid_amount = c.calculate_totals.total_paid_amount
  ∧ c.calculate_totals.calculate_totals.patient_responsibility = c.calculate_totals.patient_responsibility := by
  have hl := calcTotals_claim_lines c
  have hb : c.calculate_totals.calculate_totals.total_billed_amount = c.calculate_totals.total_billed_amount := by
    rw [calcTotals_billed c.calculate_totals, hl, calcTotals_billed c]
  have ha : c.calculate_totals.calculate_totals.total_allowed_amount = c.calculate_totals.total_allowed_amount := by
    rw [calcTotals_allowed c.calculate_totals, hl]
    cases hcond : c.claim_lines.any (fun l => optTruthy l.allowed_amount) with
    | false => simp
    | true => simp [calcTotals_allowed c, hcond]
  have hp : c.calculate_totals.calculate_totals.total_paid_amount = c.calculate_totals.total_paid_amount := by
    rw [calcTotals_paid c.calculate_totals, hl]
    cases hcond : c.claim_lines.any (fun l => optTruthy l.paid_amount) with
    | false => simp
    | true => simp [calcTotals_paid c, hcond]
  refine ⟨hb, ha, hp, ?_⟩
  rw [calcTotals_pr c.calculate_totals, ha, hp]
  cases hcond : optTruthy c.calculate_totals.total_allowed_amount && optTruthy c.calculate_totals.total_paid_amount with
  | false => simp [hcond]
  | true => simp [hcond, calcTotals_pr c]

/-- C7 counterexample: claimGood constructs successfully, yet assigning an
empty claim_lines list or a negative total succeeds without any validation
error, producing observable objects that the construction validators would
reject — mutation does not re-validate. -/
theorem mutation_observable_counterexample :
    MedicalClaim.construct claimGood = Except.ok claimGood
  ∧ (claimGood.setClaimLines []).claim_lines = []
  ∧ MedicalClaim.construct (claimGood.setClaimLines []) = Except.error "Claim must have at least one line item"
  ∧ (claimGood.setTotalBilled (-5)).total_billed_amount = -5
  ∧ MedicalClaim.construct (claimGood.setTotalBilled (-5)) = Except.error "Total amount cannot be negative" := by
  refine ⟨?_, rfl, ?_, rfl, ?_⟩
  · simp [MedicalClaim.construct, validate_claim_lines, validate_total_amounts,
          validate_total_billed_matches_lines, sumBilled, claimGood, line150]
  · simp [MedicalClaim.construct, validate_claim_lines, MedicalClaim.setClaimLines]
  · simp [MedicalClaim.construct, validate_claim_lines, validate_total_amounts,
          MedicalClaim.setTotalBilled, claimGood, line150]

/-- C7 (amended): pydantic assignment does not re-validate; assigning
claim_lines or total_billed_amount always succeeds, stores exactly the
assigned value, and the resulting object is observable even when it
violates the construction invariants (assigning empty lines yields an
object the constructor would reject). -/
theorem assignment_not_revalidated (c : MedicalClaim) (v : List ClaimLine) (x : Rat) :
    (c.setClaimLines v).claim_lines = v
  ∧ (c.setClaimLines v).total_billed_amount = c.total_billed_amount
  ∧ (c.setTotalBilled x).total_billed_amount = x
  ∧ MedicalClaim.construct (c.setClaimLines []) = Except.error "Claim must have at least one line item" := by
  refine ⟨rfl, rfl, rfl, ?_⟩
  simp [MedicalClaim.construct, validate_claim_lines, MedicalClaim.setClaimLines]

/-- C8: a ClaimQualityMetrics constructs successfully if and only if each
of the four scores lies in [0, 100] and overall_score is within 0.01 of
the arithmetic mean of the three component scores. -/
theorem quality_metrics_construct_iff (m : ClaimQualityMetrics) :
    (ClaimQualityMetrics.construct m).isOk = true ↔
      (0 ≤ m.completeness_score ∧ m.completeness_score ≤ 100
        ∧ 0 ≤ m.accuracy_score ∧ m.accuracy_score ≤ 100
        ∧ 0 ≤ m.validity_score ∧ m.validity_score ≤ 100
        ∧ 0 ≤ m.overall_score ∧ m.overall_score ≤ 100
        ∧ |m.overall_score - (m.completeness_score + m.accuracy_score + m.validity_score) / 3| ≤ 1/100) := by
  unfold ClaimQualityMetrics.construct
  split_ifs with h1 h2 h3 h4 h5 <;>
    simp_all [scoreInRange, calculate_overall_score, Except.isOk, Except.toBool]
  all_goals intros
  all_goals first
    | (rcases h1 with h|h <;> linarith)
    | (rcases h2 with h|h <;> linarith)
    | (rcases h3 with h|h <;> linarith)
    | (rcases h4 with h|h <;> linarith)

/-- C9 counterexample: constructing a ProcedureCode with units = 0
succeeds, refuting the claim that zero or negative units fail
construction — the source declares no lower bound on units. -/
theorem procedure_code_zero_units_accepted :
    ProcedureCode.construct { code := "97110", description := "Therapeutic exercise", units := 0 } = Except.ok { code := "97110", description := "Therapeutic exercise", units := 0 } := rfl

/-- C9 (amended): units defaults to 1 when omitted, but no lower bound is
enforced — construction succeeds for every units value, zero and negative
included. -/
theorem procedure_code_units_default_no_bound (code description : String)
    (modif : Option String) (units : Int) :
    ProcedureCode.construct { code := code, description := description, modifier := modif, units := units } = Except.ok { code := code, description := description, modifier := modif, units := units }
  ∧ ({ code := code, description := description, modifier := modif : ProcedureCode }).units = 1 :=
  ⟨rfl, rfl⟩

/-- C10: for every MedicalClaim, calculate_totals changes at most the four
total fields — every other field of the claim is unchanged, unconditionally.
Moreover, independently for each side: when the lines carry
validator-conforming (non-negative) allowed amounts none of which is
positive, total_allowed_amount keeps its prior stored value (stale
manually-set ones included), and likewise for total_paid_amount with the
paid amounts. -/
theorem calculate_totals_frame (c : MedicalClaim) :
    c.calculate_totals.claim_id = c.claim_id
  ∧ c.calculate_totals.claim_number = c.claim_number
  ∧ c.calculate_totals.claim_type = c.claim_type
  ∧ c.calculate_totals.claim_status = c.claim_status
  ∧ c.calculate_totals.patient = c.patient
  ∧ c.calculate_totals.insurance = c.insurance
  ∧ c.calculate_totals.provider = c.provider
  ∧ c.calculate_totals.claim_lines = c.claim_lines
  ∧ c.calculate_totals.date_of_service = c.date_of_service
  ∧ c.calculate_totals.claim_received_date = c.claim_received_date
  ∧ c.calculate_totals.claim_processed_date = c.claim_processed_date
  ∧ c.calculate_totals.notes = c.notes
  ∧ c.calculate_totals.attachments = c.attachments
  ∧ c.calculate_totals.metadata = c.metadata
  ∧ ((∀ l ∈ c.claim_lines, validate_amounts l.allowed_amount = true) → (∀ l ∈ c.claim_lines, ¬ 0 < ((l.allowed_amount).getD 0)) → c.calculate_totals.total_allowed_amount = c.total_allowed_amount)
  ∧ ((∀ l ∈ c.claim_lines, validate_amounts l.paid_amount = true) → (∀ l ∈ c.claim_lines, ¬ 0 < ((l.paid_amount).getD 0)) → c.calculate_totals.total_paid_amount = c.total_paid_amount) := by
  obtain ⟨tb, ta, tp, pr, h⟩ := calcTotals_eq_update c
  refine ⟨by rw [h], by rw [h], by rw [h], by rw [h], by rw [h], by rw [h], by rw [h], by rw [h], by rw [h], by rw [h], by rw [h], by rw [h], by rw [h], by rw [h], ?_, ?_⟩
  · intro hva hna
    have hA : c.claim_lines.any (fun l => optTruthy l.allowed_amount) = false := by
      simpa using any_optTruthy_eq_false c.claim_lines (fun l => l.allowed_amount) hva hna
    rw [calcTotals_allowed, hA]
    simp
  · intro hvp hnp
    have hP : c.claim_lines.any (fun l => optTruthy l.paid_amount) = false := by
      simpa using any_optTruthy_eq_false c.claim_lines (fun l => l.paid_amount) hvp hnp
    rw [calcTotals_paid, hP]
    simp

/-- C10 witness: claimGood's line has no allowed or paid amount, so
calculate_totals leaves every non-total field exactly as stored, and both
retention implications fire: the stored allowed and paid totals survive. -/
theorem calculate_totals_frame_witness :
    claimGood.calculate_totals.claim_id = claimGood.claim_id
  ∧ claimGood.calculate_totals.claim_number = claimGood.claim_number
  ∧ claimGood.calculate_totals.claim_type = claimGood.claim_type
  ∧ claimGood.calculate_totals.claim_status = claimGood.claim_status
  ∧ claimGood.calculate_totals.patient = claimGood.patient
  ∧ claimGood.calculate_totals.insurance = claimGood.insurance
  ∧ claimGood.calculate_totals.provider = claimGood.provider
  ∧ claimGood.calculate_totals.claim_lines = claimGood.claim_lines
  ∧ claimGood.calculate_totals.date_of_service = claimGood.date_of_service
  ∧ claimGood.calculate_totals.claim_received_date = claimGood.claim_received_date
  ∧ claimGood.calculate_totals.claim_processed_date = claimGood.claim_processed_date
  ∧ claimGood.calculate_totals.notes = claimGood.notes
  ∧ claimGood.calculate_totals.attachments = claimGood.attachments
  ∧ claimGood.calculate_totals.metadata = claimGood.metadata
  ∧ claimGood.calculate_totals.total_allowed_amount = claimGood.total_allowed_amount
  ∧ claimGood.calculate_totals.total_paid_amount = claimGood.total_paid_amount := by
  obtain ⟨h1, h2, h3, h4, h5, h6, h7, h8, h9, h10, h11, h12, h13, h14, hA, hP⟩ :=
    calculate_totals_frame claimGood
  exact ⟨h1, h2, h3, h4, h5, h6, h7, h8, h9, h10, h11, h12, h13, h14,
    hA (by decide) (by decide), hP (by decide) (by decide)⟩
